import Mathlib

/-!
Verification development for the `is` test-assertion helper package.

The package wraps comparison primitives (deep equality, error presence,
boolean truth, panic detection) around a small test-reporting interface
`T` (`Fail`, `FailNow`, `Log`, `Helper`), and augments failure messages
with a trailing source comment and, for `True`, the literal source text
of the failing expression.  The shallow embedding below models:

  * the reporter as the `mockT` state used by the package's own tests
    (a fail state, the last logged message, and a helper-call counter);
  * Go interface values, errors and panic outcomes as small inductive
    types, with Go stdlib behaviour (`reflect.DeepEqual`, `fmt`
    rendering, `errors.Is`, `errors.As`, `strings` functions) modelled
    explicitly on the fragment of values the package manipulates
    (ASCII strings, so Go byte indexing coincides with character
    indexing);
  * the source annotator as pure functions over an abstract parse
    result (`ParsedFile`): the line-indexed comment and argument
    tables are built exactly as `loadComment` / `loadArgument` build
    them from `go/ast` comment groups and printed call expressions;
  * `runtime.Caller(skip)` as an explicit caller location parameter
    (the `skip` constants are kept in the definitions but the resolved
    file and line are passed in).
-/

/-- Fail state of the mock reporter, as in the package's test double:
`pass` initially, `fail` after `Fail()`, `failNow` after `FailNow()`. -/
inductive FailState where
  | pass : FailState
  | fail : FailState
  | failNow : FailState
deriving DecidableEq, Repr

/-- The mock reporter `mockT` from the package's tests: the observable
effect of a call through the `T` interface.  `Log` keeps only the last
message, `Helper` counts invocations. -/
structure MockT where
  state : FailState
  msg : String
  helperCount : Nat
deriving DecidableEq, Repr

/-- Empty string constant (the Go zero value for `string`). -/
def noStr : String := ""

/-- Fresh mock reporter, `new(mockT)` in the tests. -/
def MockT.init : MockT := ⟨FailState.pass, noStr, 0⟩

/-- `mockT.Fail`: mark failed, continue. -/
def MockT.doFail (m : MockT) : MockT := { m with state := FailState.fail }

/-- `mockT.FailNow`: mark failed, abort the test unit. -/
def MockT.doFailNow (m : MockT) : MockT := { m with state := FailState.failNow }

/-- `mockT.Log`: record the message (last write wins). -/
def MockT.doLog (m : MockT) (s : String) : MockT := { m with msg := s }

/-- `mockT.Helper`: count the helper-marking call. -/
def MockT.doHelper (m : MockT) : MockT := { m with helperCount := m.helperCount + 1 }

/-- Which reporting primitive an assertion passes to `logf`:
`is.t.Fail` or `is.t.FailNow`. -/
inductive FailFunc where
  | fail : FailFunc
  | failNow : FailFunc
deriving DecidableEq, Repr

/-- Apply the chosen reporting primitive to the mock reporter. -/
def MockT.applyFail (m : MockT) : FailFunc → MockT
  | FailFunc.fail => m.doFail
  | FailFunc.failNow => m.doFailNow

/-- A Go `interface{}` value as the package observes it: either the nil
interface (a true absence) or a value of a concrete dynamic type, with
its type name and its `%v` rendering.  `reflect.DeepEqual` on this
fragment is modelled by structural equality: same dynamic type and same
value. -/
inductive GoValue where
  | nilI : GoValue
  | mk (typ : String) (rep : String) : GoValue
deriving DecidableEq, Repr

/-- Modelled Go stdlib `reflect.DeepEqual` on the embedded fragment of
values: the nil interface is deep-equal only to itself; two non-nil
values are deep-equal when their dynamic types and values agree. -/
def deepEqual (a b : GoValue) : Bool := decide (a = b)

/-- The package's `isNil`: `obj == nil` on an `interface{}`, true only
for the nil interface value (a typed nil inside an interface is not
`== nil`). -/
def isNil (obj : GoValue) : Bool :=
  match obj with
  | GoValue.nilI => true
  | GoValue.mk _ _ => false

/-- Modelled `fmt` `%v` rendering: `<nil>` for the nil interface,
otherwise the value's rendering. -/
def sprintV (v : GoValue) : String :=
  match v with
  | GoValue.nilI => "<nil>"
  | GoValue.mk _ rep => rep

/-- Dynamic type name of a non-nil value; the nil interface has none
(Go would panic on `reflect.ValueOf(nil).Type()`, which the package
never reaches because the nil branch returns first). -/
def goTypeName (v : GoValue) : String :=
  match v with
  | GoValue.nilI => noStr
  | GoValue.mk typ _ => typ

/-- The package's `reflect.ValueOf(a).Type() == reflect.ValueOf(b).Type()`
test, only ever evaluated on two non-nil values. -/
def goTypeEq (a b : GoValue) : Bool :=
  match a, b with
  | GoValue.mk t1 _, GoValue.mk t2 _ => decide (t1 = t2)
  | _, _ => false

/-- The package's `valWithType`: `<nil>` for a true absence, otherwise
`%[1]T(%[1]v)`, i.e. `Type(value)`. -/
def valWithType (v : GoValue) : String :=
  if isNil v then "<nil>"
  else goTypeName v ++ "(" ++ sprintV v ++ ")"

/-- A Go `error` value: `eid` models the allocation identity used by
`==` on two `errors.New` values, `typ` the dynamic type name, `msg` the
`Error()` message; `wrap` is an error that unwraps to an inner error. -/
inductive GoError where
  | base (eid : Nat) (typ : String) (msg : String) : GoError
  | wrap (eid : Nat) (typ : String) (msg : String) (inner : GoError) : GoError
deriving DecidableEq, Repr

/-- The `Error()` method: the error's message. -/
def GoError.Error : GoError → String
  | GoError.base _ _ m => m
  | GoError.wrap _ _ m _ => m

/-- Allocation identity of an error value. -/
def GoError.eid : GoError → Nat
  | GoError.base i _ _ => i
  | GoError.wrap i _ _ _ => i

/-- Dynamic type name of an error value. -/
def GoError.typ : GoError → String
  | GoError.base _ t _ => t
  | GoError.wrap _ t _ _ => t

/-- The unwrap chain of an error: the error followed by everything it
wraps. -/
def GoError.chain : GoError → List GoError
  | GoError.base i t m => [GoError.base i t m]
  | GoError.wrap i t m inner => GoError.wrap i t m inner :: GoError.chain inner

/-- Modelled Go stdlib `errors.Is` on the embedded fragment: identity
(`err == target`) at each step of the unwrap chain. -/
def errorsIs : GoError → GoError → Bool
  | GoError.base i _ _, target => decide (i = target.eid)
  | GoError.wrap i _ _ inner, target => decide (i = target.eid) || errorsIs inner target

/-- The second argument of `ErrorAs`: a pointer whose pointed-to type
is named `pointee` (for `var q *QueryError; is.ErrorAs(err, &q)` the
pointee is `*is_test.QueryError`). -/
structure ErrTarget where
  pointee : String
deriving DecidableEq, Repr

/-- Modelled `fmt` `%T` of the target pointer: a pointer to its
pointed-to type. -/
def sprintTType (t : ErrTarget) : String := "*" ++ t.pointee

/-- Modelled Go stdlib `errors.As` on a non-nil error: some error in
the unwrap chain has the dynamic type the target points to
(assignability of concrete types is type identity). -/
def goErrorAs : GoError → ErrTarget → Bool
  | GoError.base _ t _, target => decide (t = target.pointee)
  | GoError.wrap _ t _ inner, target => decide (t = target.pointee) || goErrorAs inner target

/-- Modelled Go stdlib `errors.As` lifted to a possibly-nil error:
`errors.As(nil, target)` is false. -/
def errorsAs (err : Option GoError) (target : ErrTarget) : Bool :=
  match err with
  | none => false
  | some e => goErrorAs e target

/-- A caller source location, the resolution of `runtime.Caller(skip)`
for the frame of the actual test. -/
structure Loc where
  file : String
  line : Nat
deriving DecidableEq, Repr

/-- A Go map, with later writes overriding earlier ones and lookups of
missing keys yielding the zero value. -/
abbrev GoMap (α β : Type) : Type := List (α × β)

/-- Go map assignment `m[k] = v` (the new binding shadows older ones). -/
def GoMap.insert {α β : Type} (m : GoMap α β) (k : α) (v : β) : GoMap α β :=
  (k, v) :: m

/-- Go map read `m[k]` with zero value `d` for a missing key. -/
def GoMap.findD {α β : Type} [DecidableEq α] (m : GoMap α β) (k : α) (d : β) : β :=
  match m with
  | [] => d
  | (k', v) :: rest => if k' = k then v else GoMap.findD rest k d

/-- Whether the map records the key at all. -/
def GoMap.hasKey {α β : Type} [DecidableEq α] (m : GoMap α β) (k : α) : Bool :=
  match m with
  | [] => false
  | (k', _) :: rest => decide (k' = k) || GoMap.hasKey rest k

/-- Modelled Go `unicode.IsSpace` on the characters that occur in
source text. -/
def isGoSpace (c : Char) : Bool :=
  c = ' ' || c = '\t' || c = '\n' || c = '\x0b' || c = '\x0c' || c = '\r' ||
  c = '\u0085' || c = ' '

/-- Modelled Go stdlib `strings.TrimSpace`. -/
def goTrimSpace (s : String) : String :=
  (((s.toList.dropWhile isGoSpace).reverse.dropWhile isGoSpace).reverse).asString

/-- Left-to-right non-overlapping replacement on character lists; the
fuel argument (instantiated with the list length) makes the recursion
structural, and suffices because a match consumes at least one
character of a non-empty pattern. -/
def replaceAllAux (old new : List Char) : Nat → List Char → List Char
  | _, [] => []
  | 0, l => l
  | Nat.succ n, c :: rest =>
    if old.isPrefixOf (c :: rest) then
      new ++ replaceAllAux old new n ((c :: rest).drop old.length)
    else
      c :: replaceAllAux old new n rest

/-- Modelled Go stdlib `strings.ReplaceAll` (on the ASCII strings the
package manipulates, where byte and character indexing coincide). -/
def goReplaceAll (s old new : String) : String :=
  (replaceAllAux old.toList new.toList s.toList.length s.toList).asString

/-- Substring test on character lists. -/
def containsList : List Char → List Char → Bool
  | [], pat => pat.isEmpty
  | c :: rest, pat => pat.isPrefixOf (c :: rest) || containsList rest pat

/-- Modelled Go stdlib `strings.Contains`. -/
def goContains (s sub : String) : Bool := containsList s.toList sub.toList

/-- Modelled Go slice expression `s[i:j]` (ASCII, so byte offsets are
character offsets). -/
def goSlice (s : String) (i j : Nat) : String :=
  ((s.toList.drop i).take (j - i)).asString

/-- A comment group of the parsed file: the line of its position and
the text `s.Text()` yields (comment markers stripped, trailing
newline kept). -/
structure CommentGroup where
  line : Nat
  text : String
deriving DecidableEq, Repr

/-- A call expression of the parsed file, as `loadArgument` consumes
it: `printed` is the `go/printer` rendering (continuation lines
indented with a tab), `line` the line of `ret.Pos()`, and `lparenOff`
the offset `ret.Lparen - ret.Pos()` of the opening parenthesis. -/
structure CallExprInfo where
  printed : String
  line : Nat
  lparenOff : Nat
deriving DecidableEq, Repr

/-- The result of `go/parser.ParseFile` on a source file, reduced to
the two node kinds the annotator walks. -/
structure ParsedFile where
  comments : List CommentGroup
  calls : List CallExprInfo
deriving DecidableEq, Repr

/-- Outcome of an operation that may abort the whole process: either a
Go panic carrying a message, or a normal result. -/
inductive PanicOr (α : Type) where
  | panicked (e : String) : PanicOr α
  | ok (val : α) : PanicOr α
deriving DecidableEq, Repr

/-- The comment-table construction inside `loadComment`: for every
comment group record `line ↦ "// " + strings.TrimSpace(s.Text())`. -/
def buildCommentTable (f : ParsedFile) : GoMap Nat String :=
  f.comments.foldl (fun m s => GoMap.insert m s.line ("// " ++ goTrimSpace s.text)) []

/-- The argument-table construction inside `loadArgument`: for every
call expression whose printed form contains `funcName`, collapse the
`"\n\t"` line continuations to single spaces, slice out the text
between the parentheses, and record it at the call's starting line. -/
def buildArgumentTable (f : ParsedFile) (funcName : String) : GoMap Nat String :=
  f.calls.foldl
    (fun m ret =>
      if goContains ret.printed funcName then
        let args := goReplaceAll ret.printed ("\n\t") (" ")
        let args := goSlice args (ret.lparenOff + 1) (args.length - 1)
        GoMap.insert m ret.line args
      else m)
    []

/-- The package's `loadComment(path)`: parse the file (the parse
outcome is the explicit argument here) and index the comments; a parse
error is a `panic(err)`. -/
def loadComment (parseResult : Except String ParsedFile) : PanicOr (GoMap Nat String) :=
  match parseResult with
  | Except.error err => PanicOr.panicked err
  | Except.ok f => PanicOr.ok (buildCommentTable f)

/-- The package's `loadArgument(path, funcName)`: parse the file (the
parse outcome is the explicit argument here) and index the call
arguments; a parse error is a `panic(err)`. -/
def loadArgument (parseResult : Except String ParsedFile) (funcName : String) :
    PanicOr (GoMap Nat String) :=
  match parseResult with
  | Except.error err => PanicOr.panicked err
  | Except.ok f => PanicOr.ok (buildArgumentTable f funcName)

/-- The `Is` test helper: the two lazily built caches, keyed by caller
file path, then by line (the reporter `t` is threaded through the
methods as explicit `MockT` state). -/
structure Is where
  comments : GoMap String (GoMap Nat String)
  arguments : GoMap String (GoMap Nat String)
deriving DecidableEq, Repr

/-- The package's `load()`: walk the test directory and fill both
caches for every `_test.go` file, here given the parsed files
directly. -/
def Is.load (files : List (String × ParsedFile)) : Is :=
  { comments := files.foldl (fun m pf => GoMap.insert m pf.1 (buildCommentTable pf.2)) []
    arguments := files.foldl (fun m pf => GoMap.insert m pf.1 (buildArgumentTable pf.2 ("True"))) [] }

/-- The method `is.loadComment(skip)`: `runtime.Caller(skip)` resolves
the caller file and line (passed here as `loc`), then
`is.comments[file][line]` with Go zero-value semantics for missing
keys. -/
def Is.loadComment (i : Is) (skip : Nat) (loc : Loc) : String :=
  let _ := skip
  GoMap.findD (GoMap.findD i.comments loc.file []) loc.line noStr

/-- The method `is.loadArgument()`: `runtime.Caller(2)` resolves the
caller file and line (passed here as `loc`), then
`is.arguments[file][line]` with Go zero-value semantics for missing
keys. -/
def Is.loadArgument (i : Is) (loc : Loc) : String :=
  GoMap.findD (GoMap.findD i.arguments loc.file []) loc.line noStr

/-- The joined message logged by `logf`: the formatted failure message,
then the caller-line comment when there is one
(`strings.Join(msg, " ")` over the one- or two-element slice). -/
def withComment (core comment : String) : String :=
  if comment = noStr then core else core ++ " " ++ comment

/-- The package's `logf(failFunc, skip, format, args...)`: mark the
helper frame, append the caller-line comment to the formatted message
when non-empty, log, then invoke the chosen fail primitive. -/
def Is.logf (i : Is) (st : MockT) (failFunc : FailFunc) (skip : Nat) (loc : Loc)
    (core : String) : MockT :=
  let st := st.doHelper
  let comment := i.loadComment skip loc
  let st := st.doLog (withComment core comment)
  st.applyFail failFunc

/-- The method `is.Equal(a, b)`: pass on deep equality; otherwise a
three-way branch on nil-ness and type identity chooses between
type-annotated and raw renderings. -/
def Is.Equal (i : Is) (st : MockT) (loc : Loc) (a b : GoValue) : MockT :=
  let st := st.doHelper
  let skip := 3
  if deepEqual a b then st
  else if isNil a || isNil b then
    i.logf st FailFunc.fail skip loc ("is.Equal" ++ ": " ++ valWithType a ++ " != " ++ valWithType b)
  else if goTypeEq a b then
    i.logf st FailFunc.fail skip loc ("is.Equal" ++ ": " ++ sprintV a ++ " != " ++ sprintV b)
  else
    i.logf st FailFunc.fail skip loc ("is.Equal" ++ ": " ++ valWithType a ++ " != " ++ valWithType b)

/-- The method `is.Error(err, expectedErrors...)`: fail now with
`<nil>` on an absent error; pass when no expected errors are given, or
when `errors.Is` matches one of them; otherwise fail now with the
single mismatched pair or the generic message. -/
def Is.Error (i : Is) (st : MockT) (loc : Loc) (err : Option GoError)
    (expectedErrors : List GoError) : MockT :=
  let st := st.doHelper
  let skip := 3
  match err with
  | none => i.logf st FailFunc.failNow skip loc ("is.Error" ++ ": <nil>")
  | some e =>
    if expectedErrors.length = 0 then st
    else if expectedErrors.any (fun x => errorsIs e x) then st
    else if expectedErrors.length = 1 then
      i.logf st FailFunc.failNow skip loc
        ("is.Error" ++ ": " ++ e.Error ++ " != " ++ (expectedErrors.headD (GoError.base 0 noStr noStr)).Error)
    else
      i.logf st FailFunc.failNow skip loc
        ("is.Error" ++ ": " ++ e.Error ++ " != one of the expected errors")

/-- The method `is.ErrorAs(err, target)`: pass when `errors.As`
matches; otherwise fail now reporting `%T` of the target. -/
def Is.ErrorAs (i : Is) (st : MockT) (loc : Loc) (err : Option GoError)
    (target : ErrTarget) : MockT :=
  let st := st.doHelper
  let skip := 3
  if !(errorsAs err target) then
    i.logf st FailFunc.failNow skip loc ("is.ErrorAs" ++ ": err != " ++ sprintTType target)
  else st

/-- The method `is.NoError(err)`: pass when the error is absent;
otherwise fail now with the error's message. -/
def Is.NoError (i : Is) (st : MockT) (loc : Loc) (err : Option GoError) : MockT :=
  let st := st.doHelper
  let skip := 3
  match err with
  | some e => i.logf st FailFunc.failNow skip loc ("is.NoError" ++ ": " ++ e.Error)
  | none => st

/-- The method `is.True(expression)`: pass on true; otherwise look up
the literal argument source text at the caller's location and fail
with it. -/
def Is.True (i : Is) (st : MockT) (loc : Loc) (expression : Bool) : MockT :=
  let st := st.doHelper
  let skip := 3
  if expression then st
  else
    let args := i.loadArgument loc
    i.logf st FailFunc.fail skip loc ("is.True" ++ ": " ++ args)

/-- How the function handed to `Panic` terminates: a normal return or
a panic carrying a recovered value (`panic(nil)` recovers to the nil
interface, like a normal return, under the Go revision this package
targets). -/
inductive PanicOutcome where
  | returns : PanicOutcome
  | panics (v : GoValue) : PanicOutcome
deriving DecidableEq, Repr

/-- The value `recover()` yields in the deferred function after `f()`
ran. -/
def recovered : PanicOutcome → GoValue
  | PanicOutcome.returns => GoValue.nilI
  | PanicOutcome.panics v => v

/-- The method `is.Panic(f, expectedValues...)`: mark a helper frame,
run `f`, and in the deferred function mark another helper frame,
recover, and branch: a nil recovery fails as "the function is not
panic"; otherwise pass when no expected values are given or one
deep-equals the recovered value, else fail with the single mismatched
pair or the generic message. -/
def Is.Panic (i : Is) (st : MockT) (loc : Loc) (f : PanicOutcome)
    (expectedValues : List GoValue) : MockT :=
  let st := st.doHelper
  let st := st.doHelper
  let skip := 4
  let r := recovered f
  if isNil r then
    i.logf st FailFunc.fail skip loc ("is.Panic" ++ ": the function is not panic")
  else if expectedValues.length = 0 then st
  else if expectedValues.any (fun v => deepEqual r v) then st
  else if expectedValues.length = 1 then
    i.logf st FailFunc.fail skip loc
      ("is.Panic" ++ ": " ++ sprintV r ++ " != " ++ sprintV (expectedValues.headD GoValue.nilI))
  else
    i.logf st FailFunc.fail skip loc
      ("is.Panic" ++ ": " ++ sprintV r ++ " != one of the expected panic values")

/-- Printed form of the multi-line call `is.True((1 == 2) && false || false)`
as `go/printer` renders it, continuation lines indented with a tab. -/
def mlPrinted : String := "is.True((1 == 2) &&\n\tfalse ||\n\tfalse)"

/-- The multi-line call expression node: starts at line 10, opening
parenthesis 7 bytes after the expression start (`is.True(`). -/
def mlCall : CallExprInfo := ⟨mlPrinted, 10, 7⟩

/-- Parsed test file with a comment attached to the first line of the
multi-line call. -/
def fileCommentFirst : ParsedFile := ⟨[⟨10, "comment\n"⟩], [mlCall]⟩

/-- Parsed test file with a comment attached to a non-first line of the
multi-line call. -/
def fileCommentLater : ParsedFile := ⟨[⟨11, "cannot be printed\n"⟩], [mlCall]⟩

/-- Helper loaded from the file whose comment sits on the call's first
line. -/
def isMLFirst : Is := Is.load [(("a_test.go"), fileCommentFirst)]

/-- Helper loaded from the file whose comment sits on a later line of
the call. -/
def isMLLater : Is := Is.load [(("a_test.go"), fileCommentLater)]

/-- Caller location of the multi-line `True` call. -/
def mlLoc : Loc := ⟨("a_test.go"), 10⟩

/-- Helper with empty caches (loaded from no test files). -/
def is0 : Is := Is.load []

/-- A fixed caller location for cache-independent calls. -/
def loc0 : Loc := ⟨("t_test.go"), 1⟩

/-- Parsed test file carrying only the trailing comment of an
`is.Equal("foo", "bar")` call at line 20. -/
def fileFooBar : ParsedFile := ⟨[⟨20, "foo is not bar\n"⟩], []⟩

/-- Helper loaded from that file. -/
def isC3 : Is := Is.load [(("b_test.go"), fileFooBar)]

/-- Caller location of the commented `Equal` call. -/
def c3Loc : Loc := ⟨("b_test.go"), 20⟩

/-- The message `logf` logs is the formatted text followed by the
caller-line comment when there is one. -/
theorem logf_msg (i : Is) (st : MockT) (ff : FailFunc) (skip : Nat) (loc : Loc)
    (core : String) :
    (Is.logf i st ff skip loc core).msg = withComment core (i.loadComment skip loc) := by
  cases ff <;> rfl

/-- The state `logf` leaves is determined by the fail primitive it was
handed. -/
theorem logf_state (i : Is) (st : MockT) (ff : FailFunc) (skip : Nat) (loc : Loc)
    (core : String) :
    (Is.logf i st ff skip loc core).state
      = (match ff with
          | FailFunc.fail => FailState.fail
          | FailFunc.failNow => FailState.failNow) := by
  cases ff <;> rfl

/-- The helper counter grows by exactly one inside `logf`. -/
theorem logf_helperCount (i : Is) (st : MockT) (ff : FailFunc) (skip : Nat) (loc : Loc)
    (core : String) :
    (Is.logf i st ff skip loc core).helperCount = st.helperCount + 1 := by
  cases ff <;> rfl

/-- Inserting a different key does not change a Go map lookup. -/
theorem findD_insert_ne {α β : Type} [DecidableEq α] (m : GoMap α β) (k k' : α)
    (v : β) (d : β) (h : k' ≠ k) :
    GoMap.findD (GoMap.insert m k' v) k d = GoMap.findD m k d := by
  simp [GoMap.insert, GoMap.findD, h]

/-- A Go map lookup for an unrecorded key yields the zero value. -/
theorem findD_of_not_hasKey {α β : Type} [DecidableEq α] (m : GoMap α β) (k : α)
    (d : β) (h : GoMap.hasKey m k = false) :
    GoMap.findD m k d = d := by
  induction m with
  | nil => rfl
  | cons hd tl ih =>
    obtain ⟨k', v⟩ := hd
    simp only [GoMap.hasKey, Bool.or_eq_false_iff, decide_eq_false_iff_not] at h
    simp [GoMap.findD, h.1, ih h.2]

/-- Folding the comment inserts over lines that all differ from the
looked-up line leaves the lookup unchanged. -/
theorem foldl_comment_miss (cs : List CommentGroup) (acc : GoMap Nat String)
    (line : Nat) (h : ∀ s ∈ cs, s.line ≠ line) :
    GoMap.findD
      (cs.foldl (fun m s => GoMap.insert m s.line ("// " ++ goTrimSpace s.text)) acc)
      line noStr
      = GoMap.findD acc line noStr := by
  induction cs generalizing acc with
  | nil => rfl
  | cons s rest ih =>
    simp only [List.foldl_cons]
    rw [ih _ (fun x hx => h x (List.mem_cons_of_mem _ hx))]
    exact findD_insert_ne _ _ _ _ _ (h s (List.mem_cons_self _ _))

/-- C1: when the asserted expression is false, `True` fails and its
reported message contains, verbatim, the argument source text looked
up by caller file and line in the argument table; a call spanning
several source lines is reconstructed with the line continuations
collapsed to single spaces, a comment on the call's first line is
included in the report and a comment attached only to a later line is
not; when the expression is true, `True` reports nothing and does not
fail. -/
theorem claim_c1_true_reports_argument_text :
    (∀ (i : Is) (st : MockT) (loc : Loc),
        (Is.True i st loc true).msg = st.msg ∧ (Is.True i st loc true).state = st.state)
    ∧ (∀ (i : Is) (st : MockT) (loc : Loc),
        (Is.True i st loc false).state = FailState.fail
        ∧ (Is.True i st loc false).msg
            = withComment ("is.True" ++ ": " ++ Is.loadArgument i loc) (Is.loadComment i 3 loc)
        ∧ ∃ p q, (Is.True i st loc false).msg = p ++ (Is.loadArgument i loc ++ q))
    ∧ GoMap.findD (buildArgumentTable fileCommentFirst ("True")) 10 noStr
        = "(1 == 2) && false || false"
    ∧ (Is.True isMLFirst MockT.init mlLoc false).msg
        = "is.True: (1 == 2) && false || false // comment"
    ∧ (Is.True isMLLater MockT.init mlLoc false).msg
        = "is.True: (1 == 2) && false || false"
    ∧ (Is.True isMLFirst MockT.init mlLoc true).msg = noStr
    ∧ (Is.True isMLFirst MockT.init mlLoc true).state = FailState.pass := by
  refine ⟨fun i st loc => ⟨rfl, rfl⟩, ?_, by decide, by decide, by decide, rfl, rfl⟩
  intro i st loc
  refine ⟨rfl, rfl, "is.True" ++ ": ", ?_⟩
  by_cases hc : Is.loadComment i 3 loc = noStr
  · exact ⟨noStr, by simp [Is.True, Is.logf, MockT.applyFail, MockT.doFail, MockT.doLog,
      withComment, hc, noStr, String.append_empty]⟩
  · exact ⟨" " ++ Is.loadComment i 3 loc, by
      simp [Is.True, Is.logf, MockT.applyFail, MockT.doFail, MockT.doLog,
        withComment, hc, String.append_assoc]⟩

/-- The logged message decomposes around any distinguished middle part
of the formatted text, whether or not a comment is appended. -/
theorem withComment_decomp (pre mid c : String) :
    ∃ q, withComment (pre ++ mid) c = pre ++ (mid ++ q) := by
  by_cases hc : c = noStr
  · exact ⟨noStr, by simp [withComment, hc, noStr, String.append_empty]⟩
  · exact ⟨" " ++ c, by simp [withComment, hc, String.append_assoc]⟩

/-- C2: `Equal` reports nothing and does not fail on deeply equal
operands; otherwise it fails through a three-way branch: with a
nil/empty operand both sides are reported as `Type(value)` with the
literal `<nil>` for the true absence; with identical concrete types the
raw `%v != %v` values are reported; otherwise both sides are
type-annotated. -/
theorem claim_c2_equal_three_way_branch :
    (∀ (i : Is) (st : MockT) (loc : Loc) (a b : GoValue),
        deepEqual a b = true →
        (Is.Equal i st loc a b).msg = st.msg ∧ (Is.Equal i st loc a b).state = st.state)
    ∧ (∀ (i : Is) (st : MockT) (loc : Loc) (a b : GoValue),
        deepEqual a b = false → (isNil a || isNil b) = true →
        (Is.Equal i st loc a b).state = FailState.fail
        ∧ (Is.Equal i st loc a b).msg
            = withComment ("is.Equal" ++ ": " ++ valWithType a ++ " != " ++ valWithType b)
                (Is.loadComment i 3 loc))
    ∧ (∀ (i : Is) (st : MockT) (loc : Loc) (a b : GoValue),
        deepEqual a b = false → isNil a = false → isNil b = false → goTypeEq a b = true →
        (Is.Equal i st loc a b).state = FailState.fail
        ∧ (Is.Equal i st loc a b).msg
            = withComment ("is.Equal" ++ ": " ++ sprintV a ++ " != " ++ sprintV b)
                (Is.loadComment i 3 loc))
    ∧ (∀ (i : Is) (st : MockT) (loc : Loc) (a b : GoValue),
        deepEqual a b = false → isNil a = false → isNil b = false → goTypeEq a b = false →
        (Is.Equal i st loc a b).state = FailState.fail
        ∧ (Is.Equal i st loc a b).msg
            = withComment ("is.Equal" ++ ": " ++ valWithType a ++ " != " ++ valWithType b)
                (Is.loadComment i 3 loc))
    ∧ valWithType GoValue.nilI = "<nil>"
    ∧ (Is.Equal is0 MockT.init loc0 (GoValue.mk ("int") ("1")) (GoValue.mk ("int") ("2"))).msg
        = "is.Equal: 1 != 2"
    ∧ (Is.Equal is0 MockT.init loc0 (GoValue.mk ("int") ("3")) (GoValue.mk ("bool") ("false"))).msg
        = "is.Equal: int(3) != bool(false)"
    ∧ (Is.Equal is0 MockT.init loc0 GoValue.nilI (GoValue.mk ("string") ("nil"))).msg
        = "is.Equal: <nil> != string(nil)" := by
  refine ⟨?_, ?_, ?_, ?_, rfl, by decide, by decide, by decide⟩
  · intro i st loc a b h
    constructor <;> simp [Is.Equal, h, MockT.doHelper]
  · intro i st loc a b h hnil
    constructor <;> simp [Is.Equal, h, hnil, logf_state, logf_msg]
  · intro i st loc a b h ha hb ht
    constructor <;> simp [Is.Equal, h, ha, hb, ht, logf_state, logf_msg]
  · intro i st loc a b h ha hb ht
    constructor <;> simp [Is.Equal, h, ha, hb, ht, logf_state, logf_msg]

/-- C2 witness: the branch characterizations applied at the concrete
operand pairs of the package's own test vectors. -/
theorem claim_c2_equal_three_way_branch_witness :
    ((Is.Equal is0 MockT.init loc0 (GoValue.mk ("int") ("7")) (GoValue.mk ("int") ("7"))).msg
        = MockT.init.msg)
    ∧ (Is.Equal is0 MockT.init loc0 GoValue.nilI (GoValue.mk ("string") ("nil"))).state
        = FailState.fail
    ∧ (Is.Equal is0 MockT.init loc0 (GoValue.mk ("int") ("1")) (GoValue.mk ("int") ("2"))).state
        = FailState.fail
    ∧ (Is.Equal is0 MockT.init loc0 (GoValue.mk ("int") ("3")) (GoValue.mk ("bool") ("false"))).state
        = FailState.fail := by
  refine ⟨?_, ?_, ?_, ?_⟩
  · exact (claim_c2_equal_three_way_branch.1 is0 MockT.init loc0
      (GoValue.mk ("int") ("7")) (GoValue.mk ("int") ("7")) (by decide)).1
  · exact (claim_c2_equal_three_way_branch.2.1 is0 MockT.init loc0
      GoValue.nilI (GoValue.mk ("string") ("nil")) (by decide) (by decide)).1
  · exact (claim_c2_equal_three_way_branch.2.2.1 is0 MockT.init loc0
      (GoValue.mk ("int") ("1")) (GoValue.mk ("int") ("2"))
      (by decide) (by decide) (by decide) (by decide)).1
  · exact (claim_c2_equal_three_way_branch.2.2.2.1 is0 MockT.init loc0
      (GoValue.mk ("int") ("3")) (GoValue.mk ("bool") ("false"))
      (by decide) (by decide) (by decide) (by decide)).1

/-- C9: only the nil interface counts as absent: a typed nil pointer
wrapped in a non-nil interface is not `isNil`, `Equal` against nil
fails, and the typed nil is rendered through the type-annotated branch
as `Type(<nil>)`, never as the bare token `<nil>`, which is reserved
for the nil interface itself. -/
theorem claim_c9_typed_nil_not_absent :
    ∀ (i : Is) (st : MockT) (loc : Loc) (t : String),
      isNil (GoValue.mk t ("<nil>")) = false
      ∧ deepEqual (GoValue.mk t ("<nil>")) GoValue.nilI = false
      ∧ (Is.Equal i st loc (GoValue.mk t ("<nil>")) GoValue.nilI).state = FailState.fail
      ∧ (Is.Equal i st loc (GoValue.mk t ("<nil>")) GoValue.nilI).msg
          = withComment ("is.Equal" ++ ": " ++ (t ++ "(<nil>)") ++ " != " ++ "<nil>")
              (Is.loadComment i 3 loc)
      ∧ valWithType (GoValue.mk t ("<nil>")) = t ++ "(<nil>)"
      ∧ valWithType GoValue.nilI = "<nil>"
      ∧ t ++ "(<nil>)" ≠ "<nil>" := by
  intro i st loc t
  have hval : valWithType (GoValue.mk t ("<nil>")) = t ++ "(<nil>)" := by
    show (t ++ "(") ++ "<nil>" ++ ")" = t ++ "(<nil>)"
    rw [String.append_assoc, String.append_assoc]
    rfl
  have hde : deepEqual (GoValue.mk t ("<nil>")) GoValue.nilI = false := by
    simp [deepEqual]
  refine ⟨rfl, hde, ?_, ?_, hval, rfl, ?_⟩
  · simp [Is.Equal, hde, isNil, logf_state]
  · simp only [Is.Equal, hde, Bool.false_eq_true, if_false, isNil, Bool.or_true, if_true,
      logf_msg, hval]
    rfl
  · intro h
    have h2 := congrArg String.length h
    rw [String.length_append] at h2
    have e1 : ("(<nil>)" : String).length = 7 := rfl
    have e2 : ("<nil>" : String).length = 5 := rfl
    rw [e1, e2] at h2
    omega

/-- C3: a trailing same-line comment at the failing call's line is
appended, prefixed `// `, to the formatted failure message; a line
(or file) with no recorded comment looks up to the empty string — no
error — and nothing extra is appended. -/
theorem claim_c3_comment_append :
    (∀ (i : Is) (st : MockT) (ff : FailFunc) (skip : Nat) (loc : Loc) (core : String),
        Is.loadComment i skip loc = noStr →
        (Is.logf i st ff skip loc core).msg = core)
    ∧ (∀ (i : Is) (st : MockT) (ff : FailFunc) (skip : Nat) (loc : Loc) (core : String),
        Is.loadComment i skip loc ≠ noStr →
        (Is.logf i st ff skip loc core).msg = core ++ " " ++ Is.loadComment i skip loc)
    ∧ (∀ (i : Is) (skip : Nat) (loc : Loc),
        GoMap.hasKey (GoMap.findD i.comments loc.file []) loc.line = false →
        Is.loadComment i skip loc = noStr)
    ∧ (∀ (f : ParsedFile) (line : Nat),
        (∀ s ∈ f.comments, s.line ≠ line) →
        GoMap.findD (buildCommentTable f) line noStr = noStr)
    ∧ GoMap.findD (buildCommentTable fileFooBar) 20 noStr = "// foo is not bar"
    ∧ (Is.Equal isC3 MockT.init c3Loc (GoValue.mk ("string") ("foo")) (GoValue.mk ("string") ("bar"))).msg
        = "is.Equal: foo != bar // foo is not bar" := by
  refine ⟨?_, ?_, ?_, ?_, by decide, by decide⟩
  · intro i st ff skip loc core h
    rw [logf_msg, h]
    rfl
  · intro i st ff skip loc core h
    rw [logf_msg, withComment]
    simp [h]
  · intro i skip loc h
    exact findD_of_not_hasKey _ _ _ h
  · intro f line h
    exact foldl_comment_miss f.comments [] line h

/-- C3 witness: the comment-append characterizations applied at a
loaded test file with a commented line, and at an uncommented line. -/
theorem claim_c3_comment_append_witness :
    (Is.logf is0 MockT.init FailFunc.fail 3 loc0 ("m")).msg = "m"
    ∧ (Is.logf isC3 MockT.init FailFunc.fail 3 c3Loc ("m")).msg = "m // foo is not bar"
    ∧ Is.loadComment is0 3 loc0 = noStr
    ∧ GoMap.findD (buildCommentTable fileFooBar) 5 noStr = noStr := by
  refine ⟨?_, ?_, ?_, ?_⟩
  · exact claim_c3_comment_append.1 is0 MockT.init FailFunc.fail 3 loc0 ("m") (by decide)
  · have h := claim_c3_comment_append.2.1 isC3 MockT.init FailFunc.fail 3 c3Loc ("m")
      (by decide)
    rw [h]
    decide
  · exact claim_c3_comment_append.2.2.1 is0 3 loc0 (by decide)
  · exact claim_c3_comment_append.2.2.2.1 fileFooBar 5 (by decide)

/-- C8: a parse failure during comment or argument indexing panics —
the operation aborts rather than returning a table or degrading to a
missing annotation. -/
theorem claim_c8_parse_failure_panics :
    ∀ (e : String) (funcName : String),
      loadComment (Except.error e) = PanicOr.panicked e
      ∧ loadArgument (Except.error e) funcName = PanicOr.panicked e
      ∧ (∀ t, loadComment (Except.error e) ≠ PanicOr.ok t)
      ∧ (∀ t, loadArgument (Except.error e) funcName ≠ PanicOr.ok t) := by
  intro e funcName
  refine ⟨rfl, rfl, ?_, ?_⟩ <;> intro t h <;> simp [loadComment, loadArgument] at h

/-- C4: `Error` passes on a present error with no expected errors, and
with expected errors passes exactly when `errors.Is` matches one of
them; it fails now with `<nil>` on an absent error, with the single
mismatched message pair when exactly one expected error is given, and
with the generic not-one-of-the-expected-errors message when several
are given and none match. -/
theorem claim_c4_error_semantics :
    (∀ (i : Is) (st : MockT) (loc : Loc) (exp : List GoError),
        (Is.Error i st loc none exp).state = FailState.failNow
        ∧ (Is.Error i st loc none exp).msg
            = withComment ("is.Error" ++ ": <nil>") (Is.loadComment i 3 loc))
    ∧ (∀ (i : Is) (st : MockT) (loc : Loc) (e : GoError),
        Is.Error i st loc (some e) [] = st.doHelper)
    ∧ (∀ (i : Is) (st : MockT) (loc : Loc) (e : GoError) (exp : List GoError),
        exp.any (fun x => errorsIs e x) = true →
        Is.Error i st loc (some e) exp = st.doHelper)
    ∧ (∀ (i : Is) (st : MockT) (loc : Loc) (e x : GoError),
        errorsIs e x = false →
        (Is.Error i st loc (some e) [x]).state = FailState.failNow
        ∧ (Is.Error i st loc (some e) [x]).msg
            = withComment ("is.Error" ++ ": " ++ e.Error ++ " != " ++ x.Error)
                (Is.loadComment i 3 loc))
    ∧ (∀ (i : Is) (st : MockT) (loc : Loc) (e : GoError) (exp : List GoError),
        2 ≤ exp.length → exp.any (fun x => errorsIs e x) = false →
        (Is.Error i st loc (some e) exp).state = FailState.failNow
        ∧ (Is.Error i st loc (some e) exp).msg
            = withComment ("is.Error" ++ ": " ++ e.Error ++ " != one of the expected errors")
                (Is.loadComment i 3 loc)) := by
  refine ⟨fun i st loc exp => ⟨rfl, rfl⟩, fun i st loc e => rfl, ?_, ?_, ?_⟩
  · intro i st loc e exp h
    cases exp with
    | nil => simp at h
    | cons y ys => simp [Is.Error, h]
  · intro i st loc e x h
    constructor <;> simp [Is.Error, h, logf_state, logf_msg, GoError.Error]
  · intro i st loc e exp hlen hany
    have h0 : ¬ exp.length = 0 := by omega
    have h1 : ¬ exp.length = 1 := by omega
    constructor <;> simp [Is.Error, h0, h1, hany, logf_state, logf_msg]

/-- C4 witness: the pass and failure characterizations applied at the
package's own test errors. -/
theorem claim_c4_error_semantics_witness :
    Is.Error is0 MockT.init loc0 (some (GoError.base 1 ("*errors.errorString") ("error 1")))
        [GoError.base 1 ("*errors.errorString") ("error 1")]
      = MockT.init.doHelper
    ∧ (Is.Error is0 MockT.init loc0 (some (GoError.base 1 ("*errors.errorString") ("error 1")))
        [GoError.base 2 ("*errors.errorString") ("error 2")]).msg
      = "is.Error: error 1 != error 2"
    ∧ (Is.Error is0 MockT.init loc0 (some (GoError.base 1 ("*errors.errorString") ("error 1")))
        [GoError.base 2 ("*errors.errorString") ("error 2"),
         GoError.base 3 ("*errors.errorString") ("error 3")]).msg
      = "is.Error: error 1 != one of the expected errors" := by
  refine ⟨?_, ?_, ?_⟩
  · exact claim_c4_error_semantics.2.2.1 is0 MockT.init loc0
      (GoError.base 1 ("*errors.errorString") ("error 1"))
      [GoError.base 1 ("*errors.errorString") ("error 1")] (by decide)
  · have h := (claim_c4_error_semantics.2.2.2.1 is0 MockT.init loc0
      (GoError.base 1 ("*errors.errorString") ("error 1"))
      (GoError.base 2 ("*errors.errorString") ("error 2")) (by decide)).2
    rw [h]
    decide
  · have h := (claim_c4_error_semantics.2.2.2.2 is0 MockT.init loc0
      (GoError.base 1 ("*errors.errorString") ("error 1"))
      [GoError.base 2 ("*errors.errorString") ("error 2"),
       GoError.base 3 ("*errors.errorString") ("error 3")] (by decide) (by decide)).2
    rw [h]
    decide

/-- C5: `Panic` recovers the function's termination; it passes exactly
when a panic occurred and either no expected values were given or the
recovered value deep-equals one of them; a normal return fails with the
not-panicking message, one non-matching expected value is reported as
the mismatched pair, and several non-matching expected values yield the
generic no-match message. -/
theorem claim_c5_panic_semantics :
    (∀ (i : Is) (st : MockT) (loc : Loc) (v : GoValue),
        isNil v = false →
        Is.Panic i st loc (PanicOutcome.panics v) [] = st.doHelper.doHelper)
    ∧ (∀ (i : Is) (st : MockT) (loc : Loc) (exp : List GoValue),
        (Is.Panic i st loc PanicOutcome.returns exp).state = FailState.fail
        ∧ (Is.Panic i st loc PanicOutcome.returns exp).msg
            = withComment ("is.Panic" ++ ": the function is not panic") (Is.loadComment i 4 loc))
    ∧ (∀ (i : Is) (st : MockT) (loc : Loc) (v : GoValue) (exp : List GoValue),
        isNil v = false → exp.any (fun x => deepEqual v x) = true →
        Is.Panic i st loc (PanicOutcome.panics v) exp = st.doHelper.doHelper)
    ∧ (∀ (i : Is) (st : MockT) (loc : Loc) (v x : GoValue),
        isNil v = false → deepEqual v x = false →
        (Is.Panic i st loc (PanicOutcome.panics v) [x]).state = FailState.fail
        ∧ (Is.Panic i st loc (PanicOutcome.panics v) [x]).msg
            = withComment ("is.Panic" ++ ": " ++ sprintV v ++ " != " ++ sprintV x)
                (Is.loadComment i 4 loc))
    ∧ (∀ (i : Is) (st : MockT) (loc : Loc) (v : GoValue) (exp : List GoValue),
        isNil v = false → 2 ≤ exp.length → exp.any (fun x => deepEqual v x) = false →
        (Is.Panic i st loc (PanicOutcome.panics v) exp).state = FailState.fail
        ∧ (Is.Panic i st loc (PanicOutcome.panics v) exp).msg
            = withComment ("is.Panic" ++ ": " ++ sprintV v ++ " != one of the expected panic values")
                (Is.loadComment i 4 loc)) := by
  refine ⟨?_, fun i st loc exp => ⟨rfl, rfl⟩, ?_, ?_, ?_⟩
  · intro i st loc v h
    simp [Is.Panic, recovered, h]
  · intro i st loc v exp h hany
    cases exp with
    | nil => simp at hany
    | cons y ys => simp [Is.Panic, recovered, h, hany]
  · intro i st loc v x h hne
    constructor <;>
      simp [Is.Panic, recovered, h, hne, logf_state, logf_msg]
  · intro i st loc v exp h hlen hany
    have h0 : ¬ exp.length = 0 := by omega
    have h1 : ¬ exp.length = 1 := by omega
    constructor <;>
      simp [Is.Panic, recovered, h, h0, h1, hany, logf_state, logf_msg]

/-- C5 witness: the pass and the three failure shapes applied at the
package's own test panic values. -/
theorem claim_c5_panic_semantics_witness :
    Is.Panic is0 MockT.init loc0 (PanicOutcome.panics (GoValue.mk ("string") ("i'm panic"))) []
      = MockT.init.doHelper.doHelper
    ∧ (Is.Panic is0 MockT.init loc0 PanicOutcome.returns []).msg
        = "is.Panic: the function is not panic"
    ∧ Is.Panic is0 MockT.init loc0 (PanicOutcome.panics (GoValue.mk ("string") ("i'm panic")))
        [GoValue.mk ("string") ("i'm panic"), GoValue.mk ("string") ("is this panic")]
      = MockT.init.doHelper.doHelper
    ∧ (Is.Panic is0 MockT.init loc0 (PanicOutcome.panics (GoValue.mk ("string") ("i'm panic")))
        [GoValue.mk ("string") ("are you panic")]).msg
      = "is.Panic: i'm panic != are you panic"
    ∧ (Is.Panic is0 MockT.init loc0 (PanicOutcome.panics (GoValue.mk ("string") ("i'm panic")))
        [GoValue.mk ("string") ("are you panic"), GoValue.mk ("string") ("are you crazy")]).msg
      = "is.Panic: i'm panic != one of the expected panic values" := by
  refine ⟨?_, ?_, ?_, ?_, ?_⟩
  · exact claim_c5_panic_semantics.1 is0 MockT.init loc0
      (GoValue.mk ("string") ("i'm panic")) (by decide)
  · exact (claim_c5_panic_semantics.2.1 is0 MockT.init loc0 []).2
  · exact claim_c5_panic_semantics.2.2.1 is0 MockT.init loc0
      (GoValue.mk ("string") ("i'm panic"))
      [GoValue.mk ("string") ("i'm panic"), GoValue.mk ("string") ("is this panic")]
      (by decide) (by decide)
  · have h := (claim_c5_panic_semantics.2.2.2.1 is0 MockT.init loc0
      (GoValue.mk ("string") ("i'm panic")) (GoValue.mk ("string") ("are you panic"))
      (by decide) (by decide)).2
    rw [h]
    decide
  · have h := (claim_c5_panic_semantics.2.2.2.2 is0 MockT.init loc0
      (GoValue.mk ("string") ("i'm panic"))
      [GoValue.mk ("string") ("are you panic"), GoValue.mk ("string") ("are you crazy")]
      (by decide) (by decide) (by decide)).2
    rw [h]
    decide

/-- C10: a panic whose recovered value is nil is indistinguishable from
a normal return: `Panic` fails with the not-panicking message whatever
expected values were given. -/
theorem claim_c10_panic_nil_value :
    ∀ (i : Is) (st : MockT) (loc : Loc) (exp : List GoValue),
      Is.Panic i st loc (PanicOutcome.panics GoValue.nilI) exp
        = Is.Panic i st loc PanicOutcome.returns exp
      ∧ (Is.Panic i st loc (PanicOutcome.panics GoValue.nilI) exp).state = FailState.fail
      ∧ (Is.Panic i st loc (PanicOutcome.panics GoValue.nilI) exp).msg
          = withComment ("is.Panic" ++ ": the function is not panic") (Is.loadComment i 4 loc) := by
  intro i st loc exp
  exact ⟨rfl, rfl, rfl⟩

/-- C6: `ErrorAs` passes exactly when the error's unwrap chain contains
an error of the dynamic type the target points to; on failure it
reports the target's type (which spells out the pointed-to type name)
through the abort-immediately path. -/
theorem claim_c6_erroras_chain :
    (∀ (i : Is) (st : MockT) (loc : Loc) (err : Option GoError) (target : ErrTarget),
        errorsAs err target = true →
        Is.ErrorAs i st loc err target = st.doHelper)
    ∧ (∀ (i : Is) (st : MockT) (loc : Loc) (err : Option GoError) (target : ErrTarget),
        errorsAs err target = false →
        (Is.ErrorAs i st loc err target).state = FailState.failNow
        ∧ (Is.ErrorAs i st loc err target).msg
            = withComment ("is.ErrorAs" ++ ": err != " ++ sprintTType target)
                (Is.loadComment i 3 loc)
        ∧ ∃ p q, (Is.ErrorAs i st loc err target).msg = p ++ (target.pointee ++ q))
    ∧ (∀ (e : GoError) (target : ErrTarget),
        goErrorAs e target = true ↔ ∃ x ∈ GoError.chain e, x.typ = target.pointee)
    ∧ (∀ target : ErrTarget, errorsAs none target = false) := by
  refine ⟨?_, ?_, ?_, fun target => rfl⟩
  · intro i st loc err target h
    simp [Is.ErrorAs, h]
  · intro i st loc err target h
    have hst : (Is.ErrorAs i st loc err target).state = FailState.failNow := by
      simp [Is.ErrorAs, h, logf_state]
    have hmsg : (Is.ErrorAs i st loc err target).msg
        = withComment ("is.ErrorAs" ++ ": err != " ++ sprintTType target)
            (Is.loadComment i 3 loc) := by
      simp [Is.ErrorAs, h, logf_msg]
    refine ⟨hst, hmsg, ?_⟩
    have hcore : "is.ErrorAs" ++ ": err != " ++ sprintTType target
        = (("is.ErrorAs" ++ ": err != ") ++ "*") ++ target.pointee := by
      rw [sprintTType]
      rw [String.append_assoc ("is.ErrorAs" ++ ": err != ") "*" target.pointee]
    obtain ⟨q, hq⟩ := withComment_decomp (("is.ErrorAs" ++ ": err != ") ++ "*")
      target.pointee (Is.loadComment i 3 loc)
    refine ⟨("is.ErrorAs" ++ ": err != ") ++ "*", q, ?_⟩
    rw [hmsg, hcore, hq]
  · intro e target
    induction e with
    | base eid t m => simp [goErrorAs, GoError.chain, GoError.typ]
    | wrap eid t m inner ih =>
      simp [goErrorAs, GoError.chain, GoError.typ, ih]

/-- C6 witness: the pass and failure characterizations applied at the
package's own `QueryError` test case. -/
theorem claim_c6_erroras_chain_witness :
    Is.ErrorAs is0 MockT.init loc0
        (some (GoError.base 4 ("*is_test.QueryError") ("query: SELECT")))
        (ErrTarget.mk ("*is_test.QueryError"))
      = MockT.init.doHelper
    ∧ (Is.ErrorAs is0 MockT.init loc0
        (some (GoError.base 5 ("*errors.errorString") ("it's not query error")))
        (ErrTarget.mk ("*is_test.QueryError"))).state = FailState.failNow
    ∧ (Is.ErrorAs is0 MockT.init loc0
        (some (GoError.base 5 ("*errors.errorString") ("it's not query error")))
        (ErrTarget.mk ("*is_test.QueryError"))).msg
      = "is.ErrorAs: err != **is_test.QueryError" := by
  refine ⟨?_, ?_, ?_⟩
  · exact claim_c6_erroras_chain.1 is0 MockT.init loc0
      (some (GoError.base 4 ("*is_test.QueryError") ("query: SELECT")))
      (ErrTarget.mk ("*is_test.QueryError")) (by decide)
  · exact (claim_c6_erroras_chain.2.1 is0 MockT.init loc0
      (some (GoError.base 5 ("*errors.errorString") ("it's not query error")))
      (ErrTarget.mk ("*is_test.QueryError")) (by decide)).1
  · have h := (claim_c6_erroras_chain.2.1 is0 MockT.init loc0
      (some (GoError.base 5 ("*errors.errorString") ("it's not query error")))
      (ErrTarget.mk ("*is_test.QueryError")) (by decide)).2.1
    rw [h]
    decide

/-- C7 counterexample: the claim's example constants fail on the code:
the deferred-recovery-based `Panic` invokes `Helper` three times on a
failing call, not four, and `True` — the method with an internal
indirection through `loadArgument` — invokes it twice, not three
times. -/
theorem claim_c7_helper_count_counterexample :
    (Is.Panic is0 MockT.init loc0 PanicOutcome.returns []).helperCount = 3
    ∧ ¬ (Is.Panic is0 MockT.init loc0 PanicOutcome.returns []).helperCount = 4
    ∧ (Is.True is0 MockT.init loc0 false).helperCount = 2
    ∧ ¬ (Is.True is0 MockT.init loc0 false).helperCount = 3 := by
  decide

/-- C7 (amended): for each assertion method the number of `Helper`
invocations during one failing call is a fixed constant specific to
that method: two for `Equal`, `Error`, `NoError`, `ErrorAs` and
`True`, and three for the deferred-recovery-based `Panic`. -/
theorem claim_c7_helper_count_fixed :
    (∀ (i : Is) (st : MockT) (loc : Loc) (a b : GoValue),
        deepEqual a b = false →
        (Is.Equal i st loc a b).helperCount = st.helperCount + 2)
    ∧ (∀ (i : Is) (st : MockT) (loc : Loc) (exp : List GoError),
        (Is.Error i st loc none exp).helperCount = st.helperCount + 2)
    ∧ (∀ (i : Is) (st : MockT) (loc : Loc) (e : GoError) (exp : List GoError),
        exp ≠ [] → exp.any (fun x => errorsIs e x) = false →
        (Is.Error i st loc (some e) exp).helperCount = st.helperCount + 2)
    ∧ (∀ (i : Is) (st : MockT) (loc : Loc) (e : GoError),
        (Is.NoError i st loc (some e)).helperCount = st.helperCount + 2)
    ∧ (∀ (i : Is) (st : MockT) (loc : Loc) (err : Option GoError) (target : ErrTarget),
        errorsAs err target = false →
        (Is.ErrorAs i st loc err target).helperCount = st.helperCount + 2)
    ∧ (∀ (i : Is) (st : MockT) (loc : Loc),
        (Is.True i st loc false).helperCount = st.helperCount + 2)
    ∧ (∀ (i : Is) (st : MockT) (loc : Loc) (exp : List GoValue),
        (Is.Panic i st loc PanicOutcome.returns exp).helperCount = st.helperCount + 3)
    ∧ (∀ (i : Is) (st : MockT) (loc : Loc) (v : GoValue) (exp : List GoValue),
        isNil v = false → exp ≠ [] → exp.any (fun x => deepEqual v x) = false →
        (Is.Panic i st loc (PanicOutcome.panics v) exp).helperCount = st.helperCount + 3) := by
  refine ⟨?_, ?_, ?_, ?_, ?_, ?_, ?_, ?_⟩
  · intro i st loc a b h
    simp only [Is.Equal, h, Bool.false_eq_true, if_false]
    split
    · simp [logf_helperCount, MockT.doHelper]
    · split <;> simp [logf_helperCount, MockT.doHelper]
  · intro i st loc exp
    simp [Is.Error, logf_helperCount, MockT.doHelper]
  · intro i st loc e exp hne hany
    have h0 : ¬ exp.length = 0 := by
      simpa [List.length_eq_zero] using hne
    simp only [Is.Error, h0, hany, Bool.false_eq_true, if_false]
    split <;> simp [logf_helperCount, MockT.doHelper]
  · intro i st loc e
    simp [Is.NoError, logf_helperCount, MockT.doHelper]
  · intro i st loc err target h
    simp [Is.ErrorAs, h, logf_helperCount, MockT.doHelper]
  · intro i st loc
    simp [Is.True, logf_helperCount, MockT.doHelper]
  · intro i st loc exp
    simp [Is.Panic, recovered, isNil, logf_helperCount, MockT.doHelper]
  · intro i st loc v exp h hne hany
    have h0 : ¬ exp.length = 0 := by
      simpa [List.length_eq_zero] using hne
    simp only [Is.Panic, recovered, h, h0, hany, Bool.false_eq_true, if_false]
    split <;> simp [logf_helperCount, MockT.doHelper]

/-- C7 witness: the fixed helper counts applied at one failing call of
each method. -/
theorem claim_c7_helper_count_fixed_witness :
    (Is.Equal is0 MockT.init loc0 (GoValue.mk ("int") ("1")) (GoValue.mk ("int") ("2"))).helperCount
        = MockT.init.helperCount + 2
    ∧ (Is.Error is0 MockT.init loc0 (some (GoError.base 1 ("t") ("error 1")))
        [GoError.base 2 ("t") ("error 2")]).helperCount = MockT.init.helperCount + 2
    ∧ (Is.NoError is0 MockT.init loc0 (some (GoError.base 1 ("t") ("boom")))).helperCount
        = MockT.init.helperCount + 2
    ∧ (Is.ErrorAs is0 MockT.init loc0 none (ErrTarget.mk ("*is_test.QueryError"))).helperCount
        = MockT.init.helperCount + 2
    ∧ (Is.True is0 MockT.init loc0 false).helperCount = MockT.init.helperCount + 2
    ∧ (Is.Panic is0 MockT.init loc0 (PanicOutcome.panics (GoValue.mk ("string") ("p")))
        [GoValue.mk ("string") ("q")]).helperCount = MockT.init.helperCount + 3 := by
  refine ⟨?_, ?_, ?_, ?_, ?_, ?_⟩
  · exact claim_c7_helper_count_fixed.1 is0 MockT.init loc0
      (GoValue.mk ("int") ("1")) (GoValue.mk ("int") ("2")) (by decide)
  · exact claim_c7_helper_count_fixed.2.2.1 is0 MockT.init loc0
      (GoError.base 1 ("t") ("error 1")) [GoError.base 2 ("t") ("error 2")]
      (by decide) (by decide)
  · exact claim_c7_helper_count_fixed.2.2.2.1 is0 MockT.init loc0
      (GoError.base 1 ("t") ("boom"))
  · exact claim_c7_helper_count_fixed.2.2.2.2.1 is0 MockT.init loc0 none
      (ErrTarget.mk ("*is_test.QueryError")) (by decide)
  · exact claim_c7_helper_count_fixed.2.2.2.2.2.1 is0 MockT.init loc0
  · exact claim_c7_helper_count_fixed.2.2.2.2.2.2.2 is0 MockT.init loc0
      (GoValue.mk ("string") ("p")) [GoValue.mk ("string") ("q")]
      (by decide) (by decide) (by decide)

/-- C1 witness: the `True` failure characterization applied at the
loaded multi-line test file. -/
theorem claim_c1_true_reports_argument_text_witness :
    (Is.True isMLFirst MockT.init mlLoc false).state = FailState.fail
    ∧ (Is.True isMLFirst MockT.init mlLoc true).msg = MockT.init.msg := by
  exact ⟨(claim_c1_true_reports_argument_text.2.1 isMLFirst MockT.init mlLoc).1,
    (claim_c1_true_reports_argument_text.1 isMLFirst MockT.init mlLoc).1⟩

/-- C8 witness: the panic-on-parse-failure equations applied at a
concrete parser error. -/
theorem claim_c8_parse_failure_panics_witness :
    loadComment (Except.error ("x_test.go: expected declaration"))
      = PanicOr.panicked ("x_test.go: expected declaration")
    ∧ loadArgument (Except.error ("x_test.go: expected declaration")) ("True")
      = PanicOr.panicked ("x_test.go: expected declaration") := by
  exact ⟨(claim_c8_parse_failure_panics ("x_test.go: expected declaration") ("True")).1,
    (claim_c8_parse_failure_panics ("x_test.go: expected declaration") ("True")).2.1⟩

/-- C9 witness: the typed-nil characterization applied at a concrete
pointer type. -/
theorem claim_c9_typed_nil_not_absent_witness :
    isNil (GoValue.mk ("*os.PathError") ("<nil>")) = false
    ∧ (Is.Equal is0 MockT.init loc0 (GoValue.mk ("*os.PathError") ("<nil>")) GoValue.nilI).state
        = FailState.fail := by
  exact ⟨(claim_c9_typed_nil_not_absent is0 MockT.init loc0 ("*os.PathError")).1,
    (claim_c9_typed_nil_not_absent is0 MockT.init loc0 ("*os.PathError")).2.2.1⟩

/-- C10 witness: the nil-panic characterization applied with one
expected value present. -/
theorem claim_c10_panic_nil_value_witness :
    (Is.Panic is0 MockT.init loc0 (PanicOutcome.panics GoValue.nilI)
        [GoValue.mk ("string") ("x")]).state = FailState.fail := by
  exact (claim_c10_panic_nil_value is0 MockT.init loc0 [GoValue.mk ("string") ("x")]).2.1
